import Mathlib

/-!
Shallow embedding of the diagram-construction engine
(`src/tools/diagram_tools.py`, `src/tools/validators.py`,
`src/models/schemas.py`) and proofs about its claimed behaviour.

Python strings are modelled as Lean `String`, manipulated through the
underlying character list so that every definition evaluates inside the
kernel.  Python dicts (which preserve insertion order, replace the value
in place on an existing key, and append new keys at the end) are
modelled as ordered association lists with exactly those operations.
-/

/-! ## String helpers mirroring the Python string primitives used -/

/-- Python `str.lower()` (ASCII range, which is all the code uses). -/
def lowerStr (s : String) : String := ⟨s.data.map Char.toLower⟩

/-- Python whitespace class (the characters `str.strip()` and `\s` match). -/
def isPySpace (c : Char) : Bool :=
  c = ' ' || c = '\t' || c = '\n' || c = '\r' || c = '\x0b' || c = '\x0c'

/-- Python `str.strip()`. -/
def pyStrip (s : String) : String :=
  ⟨((s.data.dropWhile isPySpace).reverse.dropWhile isPySpace).reverse⟩

/-- Python `len` on a string (counts characters). -/
def strLen (s : String) : Nat := s.data.length

/-- Python `s.startswith(p)`. -/
def startsWithStr (s p : String) : Bool := p.data.isPrefixOf s.data

/-- Python `s.endswith(p)`. -/
def endsWithStr (s p : String) : Bool := p.data.reverse.isPrefixOf s.data.reverse

/-- Python slicing `s[n:]`. -/
def dropStr (s : String) (n : Nat) : String := ⟨s.data.drop n⟩

/-- Python slicing `s[:-n]` (for `0 < n ≤ len s`). -/
def dropRightStr (s : String) (n : Nat) : String := ⟨s.data.take (s.data.length - n)⟩

/-- Python `c in s` for a single character. -/
def containsChar (s : String) (c : Char) : Bool := s.data.contains c

/-- Python substring test `needle in hay`. -/
def substrOf (needle hay : String) : Bool :=
  (hay.data.tails).any (fun t => needle.data.isPrefixOf t)

/-! ## Ordered-dict helpers (Python `dict` semantics) -/

/-- `d[k]` / `d.get(k)`. -/
def dictLookup {α : Type} (l : List (String × α)) (k : String) : Option α :=
  match l with
  | [] => none
  | (k2, v) :: rest => if k2 = k then some v else dictLookup rest k

/-- `k in d`. -/
def dictContains {α : Type} (l : List (String × α)) (k : String) : Bool :=
  (dictLookup l k).isSome

/-- `d[k] = v`: replaces in place when the key exists, appends otherwise. -/
def dictInsert {α : Type} (l : List (String × α)) (k : String) (v : α) :
    List (String × α) :=
  match l with
  | [] => [(k, v)]
  | (k2, v2) :: rest =>
      if k2 = k then (k2, v) :: rest else (k2, v2) :: dictInsert rest k v

/-- In-place update of the value stored under an existing key. -/
def dictModify {α : Type} (l : List (String × α)) (k : String) (f : α → α) :
    List (String × α) :=
  match l with
  | [] => []
  | (k2, v) :: rest =>
      if k2 = k then (k2, f v) :: rest else (k2, v) :: dictModify rest k f

/-- `del d[k]`. -/
def dictErase {α : Type} (l : List (String × α)) (k : String) :
    List (String × α) :=
  l.filter (fun p => p.1 != k)

/-- `list(d.values())`. -/
def dictValues {α : Type} (l : List (String × α)) : List α := l.map (·.2)

/-- `list(d.keys())`. -/
def dictKeys {α : Type} (l : List (String × α)) : List String := l.map (·.1)

theorem dictLookup_erase_self {α : Type} (l : List (String × α)) (k : String) :
    dictLookup (dictErase l k) k = none := by
  induction l with
  | nil => rfl
  | cons p rest ih =>
      cases p with
      | mk k2 v =>
        by_cases h : k2 = k
        · simpa [dictErase, List.filter_cons, h] using ih
        · simpa [dictErase, List.filter_cons, h, dictLookup] using ih

theorem dictLookup_insert_self {α : Type} (l : List (String × α)) (k : String) (v : α) :
    dictLookup (dictInsert l k v) k = some v := by
  induction l with
  | nil => simp [dictInsert, dictLookup]
  | cons p rest ih =>
      by_cases h : p.1 = k
      · cases p with
        | mk k2 v2 => simp_all [dictInsert, dictLookup]
      · cases p with
        | mk k2 v2 =>
          simp only at h
          simp [dictInsert, dictLookup, h, ih]

theorem mem_dictInsert_self {α : Type} (l : List (String × α)) (k : String) (v : α) :
    (k, v) ∈ dictInsert l k v := by
  induction l with
  | nil => simp [dictInsert]
  | cons p rest ih =>
      cases p with
      | mk k2 v2 =>
        by_cases h : k2 = k
        · subst h; simp [dictInsert]
        · simp [dictInsert, h]
          right; exact ih

theorem dictLookup_none_key_ne {α : Type} {l : List (String × α)} {k : String}
    (h : dictLookup l k = none) : ∀ p ∈ l, p.1 ≠ k := by
  induction l with
  | nil => intro p hp; cases hp
  | cons q rest ih =>
      cases q with
      | mk k2 v2 =>
        intro p hp
        by_cases hk : k2 = k
        · rw [dictLookup] at h; simp [hk] at h
        · rw [dictLookup] at h
          rw [if_neg hk] at h
          rcases List.mem_cons.mp hp with hp1 | hp2
          · subst hp1; simpa using hk
          · exact ih h p hp2

/-! ## Enumerations from `src/models/schemas.py` -/

/-- `CloudProvider` (values "aws", "gcp", "azure"). -/
inductive CloudProvider
  | aws
  | gcp
  | azure
deriving DecidableEq, Repr

/-- `DiagramDirection` (values "TB", "BT", "LR", "RL"). -/
inductive DiagramDirection
  | TOP_BOTTOM
  | BOTTOM_TOP
  | LEFT_RIGHT
  | RIGHT_LEFT
deriving DecidableEq, Repr

/-- `NodeType`. -/
inductive NodeType
  | compute
  | database
  | storage
  | network
  | security
  | analytics
  | ml_ai
  | integration
  | management
deriving DecidableEq, Repr

/-! ## `DiagramValidator` (`src/tools/validators.py`) -/

/-- `DiagramValidator.RESERVED_IDS`. -/
def RESERVED_IDS : List String :=
  ["diagram", "node", "cluster", "connection", "edge", "root", "main",
   "default", "system", "admin", "user", "temp", "tmp"]

/-- Matching against `ID_PATTERN = ^[a-zA-Z0-9_-]+$`. -/
def ID_PATTERN_matches (s : String) : Bool :=
  s.data ≠ [] && s.data.all (fun c => c.isAlphanum || c = '_' || c = '-')

/-- `DiagramValidator.validate_id` (returns the raised message as `.error`).
Python quotes the offending id with apostrophes in the reserved-word
message; the quotes are omitted here. -/
def validate_id (id_value : String) (id_type : String) :
    Except String Unit :=
  if id_value = "" then
    Except.error (id_type ++ " cannot be empty")
  else if strLen id_value > 50 then
    Except.error (id_type ++ " cannot exceed 50 characters")
  else if !(ID_PATTERN_matches id_value) then
    Except.error (id_type ++
      " can only contain alphanumeric characters, hyphens, and underscores")
  else if RESERVED_IDS.contains (lowerStr id_value) then
    Except.error (id_type ++ " " ++ id_value ++ " is a reserved word")
  else if startsWithStr id_value "-" || endsWithStr id_value "-" then
    Except.error (id_type ++ " cannot start or end with a hyphen")
  else if startsWithStr id_value "_" || endsWithStr id_value "_" then
    Except.error (id_type ++ " cannot start or end with an underscore")
  else
    Except.ok ()

/-- `DiagramValidator.MAX_TITLE_LENGTH`. -/
def MAX_TITLE_LENGTH : Nat := 100

/-- `DiagramValidator.validate_title`. -/
def validate_title (title : String) : Except String Unit :=
  if title = "" || pyStrip title = "" then
    Except.error "Title cannot be empty"
  else if strLen (pyStrip title) > MAX_TITLE_LENGTH then
    Except.error "Title cannot exceed 100 characters"
  else if title.data.any (fun c => containsChar "<>\"|*?\\/:" c) then
    Except.error "Title contains invalid characters"
  else
    Except.ok ()

/-- `DiagramValidator.validate_unique_id`: syntax validation followed by
the duplicate check against the already-used ids. -/
def validate_unique_id (id_value : String) (existing_ids : List String)
    (id_type : String) : Except String Unit :=
  match validate_id id_value id_type with
  | Except.error e => Except.error e
  | Except.ok _ =>
      if existing_ids.contains id_value then
        Except.error (id_type ++ " " ++ id_value ++ " already exists")
      else
        Except.ok ()

/-- `MAX_NODES_PER_DIAGRAM`. -/
def MAX_NODES_PER_DIAGRAM : Nat := 50

/-- `MAX_CONNECTIONS_PER_DIAGRAM`. -/
def MAX_CONNECTIONS_PER_DIAGRAM : Nat := 100

/-- `MAX_CLUSTERS_PER_DIAGRAM`. -/
def MAX_CLUSTERS_PER_DIAGRAM : Nat := 10

/-- `DiagramValidator.validate_diagram_limits`. -/
def validate_diagram_limits (node_count connection_count cluster_count : Nat) :
    Except String Unit :=
  if node_count > MAX_NODES_PER_DIAGRAM then
    Except.error "Diagram cannot exceed 50 nodes"
  else if connection_count > MAX_CONNECTIONS_PER_DIAGRAM then
    Except.error "Diagram cannot exceed 100 connections"
  else if cluster_count > MAX_CLUSTERS_PER_DIAGRAM then
    Except.error "Diagram cannot exceed 10 clusters"
  else
    Except.ok ()

/-! ## `ServiceNameNormalizer` (`src/tools/validators.py`) -/

/-- `ServiceNameNormalizer.SERVICE_ALIASES`. -/
def SERVICE_ALIASES : List (String × String) :=
  [("elastic_compute_cloud", "ec2"),
   ("elastic_container_service", "ecs"),
   ("elastic_kubernetes_service", "eks"),
   ("relational_database_service", "rds"),
   ("simple_storage_service", "s3"),
   ("application_load_balancer", "alb"),
   ("elastic_load_balancer", "elb"),
   ("api_gateway", "apigateway"),
   ("compute_engine", "gce"),
   ("google_kubernetes_engine", "gke"),
   ("cloud_function", "cloud_functions"),
   ("google_cloud_storage", "cloud_storage"),
   ("cloud_load_balancing", "cloud_load_balancer"),
   ("virtual_machine", "vm"),
   ("azure_kubernetes_service", "aks"),
   ("function_apps", "functions"),
   ("sql_db", "sql_database"),
   ("blob", "blob_storage")]

/-- `re.sub(r"[-\s]+", "_", s)`: each run of hyphens/whitespace becomes a
single underscore.  The boolean argument records whether the previous
character belonged to such a run. -/
def collapseSeps : Bool → List Char → List Char
  | _, [] => []
  | inRun, c :: rest =>
      if c = '-' || isPySpace c then
        if inRun then collapseSeps true rest
        else '_' :: collapseSeps true rest
      else c :: collapseSeps false rest

/-- Strip the first matching prefix from the list, then stop (`break`). -/
def stripFirstMatchingPre : List String → String → String
  | [], s => s
  | p :: rest, s =>
      if startsWithStr s p then dropStr s (strLen p)
      else stripFirstMatchingPre rest s

/-- Strip the first matching suffix from the list, then stop (`break`). -/
def stripFirstMatchingSuf : List String → String → String
  | [], s => s
  | p :: rest, s =>
      if endsWithStr s p then dropRightStr s (strLen p)
      else stripFirstMatchingSuf rest s

/-- Vendor prefixes removed by normalization. -/
def vendorPrefixes : List String :=
  ["aws_", "amazon_", "google_", "gcp_", "azure_", "microsoft_"]

/-- Suffixes removed by normalization. -/
def commonSuffixes : List String := ["_service", "_services"]

/-- `ServiceNameNormalizer.normalize_service_name`. -/
def normalize_service_name (service : String) : String :=
  if service = "" then service
  else
    let normalized := ⟨collapseSeps false (pyStrip (lowerStr service)).data⟩
    let normalized := stripFirstMatchingPre vendorPrefixes normalized
    let normalized := stripFirstMatchingSuf commonSuffixes normalized
    (dictLookup SERVICE_ALIASES normalized).getD normalized

/-! ## `CloudServiceMapper` (`src/tools/diagram_tools.py`) -/

/-- `CloudServiceMapper.SERVICE_MAPPINGS`, per provider, in source order.
Each value is `(module path, class name, node type)`; the dynamic import
of the class is modelled by keeping the `(module, class)` name pair. -/
def SERVICE_MAPPINGS : CloudProvider → List (String × (String × String × NodeType))
  | CloudProvider.aws =>
      [("ec2", ("diagrams.aws.compute", "EC2", NodeType.compute)),
       ("lambda", ("diagrams.aws.compute", "Lambda", NodeType.compute)),
       ("ecs", ("diagrams.aws.compute", "ECS", NodeType.compute)),
       ("eks", ("diagrams.aws.compute", "EKS", NodeType.compute)),
       ("fargate", ("diagrams.aws.compute", "Fargate", NodeType.compute)),
       ("batch", ("diagrams.aws.compute", "Batch", NodeType.compute)),
       ("rds", ("diagrams.aws.database", "RDS", NodeType.database)),
       ("dynamodb", ("diagrams.aws.database", "Dynamodb", NodeType.database)),
       ("redshift", ("diagrams.aws.database", "Redshift", NodeType.database)),
       ("elasticache", ("diagrams.aws.database", "ElastiCache", NodeType.database)),
       ("documentdb", ("diagrams.aws.database", "DocumentDB", NodeType.database)),
       ("s3", ("diagrams.aws.storage", "S3", NodeType.storage)),
       ("ebs", ("diagrams.aws.storage", "EBS", NodeType.storage)),
       ("efs", ("diagrams.aws.storage", "EFS", NodeType.storage)),
       ("alb", ("diagrams.aws.network", "ALB", NodeType.network)),
       ("elb", ("diagrams.aws.network", "ELB", NodeType.network)),
       ("cloudfront", ("diagrams.aws.network", "CloudFront", NodeType.network)),
       ("apigateway", ("diagrams.aws.network", "APIGateway", NodeType.network)),
       ("route53", ("diagrams.aws.network", "Route53", NodeType.network)),
       ("vpc", ("diagrams.aws.network", "VPC", NodeType.network))]
  | CloudProvider.gcp =>
      [("gce", ("diagrams.gcp.compute", "ComputeEngine", NodeType.compute)),
       ("cloud_functions", ("diagrams.gcp.compute", "Functions", NodeType.compute)),
       ("gke", ("diagrams.gcp.compute", "GKE", NodeType.compute)),
       ("cloud_run", ("diagrams.gcp.compute", "Run", NodeType.compute)),
       ("cloud_sql", ("diagrams.gcp.database", "SQL", NodeType.database)),
       ("firestore", ("diagrams.gcp.database", "Firestore", NodeType.database)),
       ("bigtable", ("diagrams.gcp.database", "Bigtable", NodeType.database)),
       ("cloud_storage", ("diagrams.gcp.storage", "Storage", NodeType.storage)),
       ("persistent_disk", ("diagrams.gcp.storage", "PersistentDisk", NodeType.storage)),
       ("cloud_load_balancer", ("diagrams.gcp.network", "LoadBalancer", NodeType.network)),
       ("cloud_dns", ("diagrams.gcp.network", "DNS", NodeType.network))]
  | CloudProvider.azure =>
      [("vm", ("diagrams.azure.compute", "VM", NodeType.compute)),
       ("functions", ("diagrams.azure.compute", "FunctionApps", NodeType.compute)),
       ("aks", ("diagrams.azure.compute", "AKS", NodeType.compute)),
       ("container_instances", ("diagrams.azure.compute", "ContainerInstances", NodeType.compute)),
       ("sql_database", ("diagrams.azure.database", "SQLDatabases", NodeType.database)),
       ("cosmos_db", ("diagrams.azure.database", "CosmosDb", NodeType.database)),
       ("blob_storage", ("diagrams.azure.storage", "BlobStorage", NodeType.storage)),
       ("disk_storage", ("diagrams.azure.storage", "DiskStorage", NodeType.storage)),
       ("load_balancer", ("diagrams.azure.network", "LoadBalancer", NodeType.network)),
       ("application_gateway", ("diagrams.azure.network", "ApplicationGateway", NodeType.network))]

/-- The provider enum value string (`CloudProvider` is a `str` enum, and
f-string formatting yields its value). -/
def providerValue : CloudProvider → String
  | CloudProvider.aws => "aws"
  | CloudProvider.gcp => "gcp"
  | CloudProvider.azure => "azure"

/-- `service.lower().replace("-", "_").replace(" ", "_")` in
`get_node_class`. -/
def serviceKeyOf (service : String) : String :=
  ⟨service.data.map (fun c =>
    if c = '-' || c = ' ' then '_' else c.toLower)⟩

/-- Python `repr` of a list of strings, as interpolated into the
not-found message (the apostrophe quoting around each key is omitted). -/
def availableListStr (keys : List String) : String :=
  "[" ++ String.intercalate ", " keys ++ "]"

/-- `CloudServiceMapper.get_node_class`.  In the source the resolved
class is dynamically imported; that import always succeeds for the
entries of the static table, so the result keeps the `(module, class)`
name pair together with the node type.  The `provider not in
SERVICE_MAPPINGS` branch is unreachable because the enum is total over
the table. -/
def get_node_class (service : String) (provider : CloudProvider) :
    Except String ((String × String) × NodeType) :=
  let service_key := serviceKeyOf service
  match dictLookup (SERVICE_MAPPINGS provider) service_key with
  | some (m, c, t) => Except.ok ((m, c), t)
  | none =>
      Except.error ("Service " ++ service ++ " not found for " ++
        providerValue provider ++ ". Available services: " ++
        availableListStr (dictKeys (SERVICE_MAPPINGS provider)))

/-! ## `ServiceNameNormalizer.suggest_services` -/

/-- Keys of the provider sub-table, in order
(`list(CloudServiceMapper.SERVICE_MAPPINGS.get(provider, {}).keys())`). -/
def availableServices (provider : CloudProvider) : List String :=
  dictKeys (SERVICE_MAPPINGS provider)

/-- The character set of a string, `set(s.lower())`, as a deduplicated
list. -/
def charSetOf (s : String) : List Char := (lowerStr s).data.eraseDups

/-- `_similarity_score(s1, s2) > 0.6`.  The score is
`|inter| / |union|` of the two character sets computed in floating
point; for the small set sizes that occur, the float comparison with
the literal `0.6` agrees with the exact rational comparison
`5 * |inter| > 3 * |union|` (and the `union == 0` and empty-string
guards both yield score `0.0`, hence `false`). -/
def similarityAbove06 (s1 s2 : String) : Bool :=
  let a := charSetOf s1
  let b := charSetOf s2
  let inter := (a.filter (fun c => b.contains c)).length
  let union := (a ++ b.filter (fun c => !(a.contains c))).length
  5 * inter > 3 * union

/-- The body of `suggest_services` once the input has been normalized:
exact match first, then the substring pass over the provider keys, then
the fuzzy pass only if nothing matched, truncated to the first 5. -/
def suggestFrom (normalized : String) (provider : CloudProvider) :
    List String :=
  let available := availableServices provider
  let exact := if available.contains normalized then [normalized] else []
  let bySubstring :=
    available.filter (fun a => substrOf normalized a || substrOf a normalized)
  let suggestions := exact ++ bySubstring
  let suggestions :=
    if suggestions.isEmpty then
      available.filter (fun a => similarityAbove06 normalized a)
    else suggestions
  suggestions.take 5

/-- `ServiceNameNormalizer.suggest_services`: normalizes the input and
then runs the matching passes of `suggestFrom`. -/
def suggest_services (service : String) (provider : CloudProvider) :
    List String :=
  suggestFrom (normalize_service_name service) provider

/-! ## Record schemas (`src/models/schemas.py`) -/

/-- `NodeInfo`. -/
structure NodeInfo where
  id : String
  label : String
  service : String
  provider : CloudProvider
  node_type : NodeType
  cluster : Option String := none
deriving DecidableEq, Repr

/-- `ConnectionInfo`. -/
structure ConnectionInfo where
  source : String
  target : String
  label : Option String := none
  bidirectional : Bool := false
deriving DecidableEq, Repr

/-- `ClusterInfo`. -/
structure ClusterInfo where
  id : String
  label : String
  nodes : List String := []
deriving DecidableEq, Repr

/-- `DiagramStructure`. -/
structure DiagramStructure where
  title : String
  direction : DiagramDirection
  nodes : List NodeInfo := []
  connections : List ConnectionInfo := []
  clusters : List ClusterInfo := []
deriving DecidableEq, Repr

/-! ## Registry state (`_diagram_registry` in `src/tools/diagram_tools.py`) -/

/-- One entry of `diagram_data["nodes"]`: the `NodeInfo` plus the
resolved `(module, class)` pair (the `"obj"` slot, populated only while
rendering, is render-internal and carries no session state). -/
structure NodeData where
  info : NodeInfo
  nodeClass : String × String
deriving DecidableEq, Repr

/-- One entry of `diagram_data["clusters"]`: the `ClusterInfo`, the
recorded (unvalidated) parent reference, and the member-id list that
`add_node` appends to (note the source appends to this outer list, not
to `info.nodes`). -/
structure ClusterData where
  info : ClusterInfo
  parent : Option String
  nodes : List String
deriving DecidableEq, Repr

/-- One `_diagram_registry` value (the `"diagram_obj"` slot, which only
ever holds the render context inside `render_diagram`, is omitted). -/
structure DiagramData where
  title : String
  direction : DiagramDirection
  filename : String
  nodes : List (String × NodeData)
  clusters : List (String × ClusterData)
  connections : List ConnectionInfo
deriving DecidableEq, Repr

/-- The process-wide `_diagram_registry`. -/
def Registry : Type := List (String × DiagramData)

/-! ## Tool input/output schemas -/

/-- `CreateDiagramInput`. -/
structure CreateDiagramInput where
  title : String
  direction : DiagramDirection := DiagramDirection.TOP_BOTTOM
  filename : Option String := none
deriving DecidableEq, Repr

/-- `CreateDiagramOutput`. -/
structure CreateDiagramOutput where
  diagram_id : String
  filename : String
  title : String
deriving DecidableEq, Repr

/-- `AddNodeInput`. -/
structure AddNodeInput where
  diagram_id : String
  node_id : String
  service : String
  provider : CloudProvider
  label : String
  cluster_id : Option String := none
deriving DecidableEq, Repr

/-- `AddNodeOutput`. -/
structure AddNodeOutput where
  node_id : String
  service : String
  node_type : NodeType
deriving DecidableEq, Repr

/-- `CreateClusterInput`. -/
structure CreateClusterInput where
  diagram_id : String
  cluster_id : String
  label : String
  parent_cluster_id : Option String := none
deriving DecidableEq, Repr

/-- `CreateClusterOutput`. -/
structure CreateClusterOutput where
  cluster_id : String
  label : String
deriving DecidableEq, Repr

/-- `ConnectNodesInput`. -/
structure ConnectNodesInput where
  diagram_id : String
  source_node_id : String
  target_node_id : String
  label : Option String := none
  bidirectional : Bool := false
deriving DecidableEq, Repr

/-- `ConnectNodesOutput`. -/
structure ConnectNodesOutput where
  source_node_id : String
  target_node_id : String
  connection_type : String
deriving DecidableEq, Repr

/-- `RenderDiagramInput`. -/
structure RenderDiagramInput where
  diagram_id : String
deriving DecidableEq, Repr

/-- `RenderDiagramOutput`. -/
structure RenderDiagramOutput where
  diagram_path : String
  file_size_bytes : Nat
  structure_ : DiagramStructure
deriving DecidableEq, Repr

/-- `True` exactly on a successful `ToolResult` (`success=True`); the
`error` payload of a failed one is the `.error` string. -/
def resultOk {α : Type} : Except String α → Bool
  | Except.ok _ => true
  | Except.error _ => false

/-! ## The five builder operations (`DiagramTools`) -/

/-- `DiagramTools.create_diagram_structure`.  The generated
`uuid4()` session id and the `file_manager.generate_filename("png")`
result are nondeterministic inputs and are passed in as arguments.
`input_data.filename or generated`: Python truthiness, so an empty
custom filename also falls back to the generated one.  No validation of
any kind is performed. -/
def create_diagram_structure (genId genFilename : String)
    (input_data : CreateDiagramInput) (reg : Registry) :
    Registry × Except String CreateDiagramOutput :=
  let filename :=
    match input_data.filename with
    | some f => if f = "" then genFilename else f
    | none => genFilename
  let data : DiagramData :=
    { title := input_data.title
      direction := input_data.direction
      filename := filename
      nodes := []
      clusters := []
      connections := [] }
  (dictInsert reg genId data,
   Except.ok { diagram_id := genId, filename := filename,
               title := input_data.title })

/-- `DiagramTools.add_node`.  Checks only that the session exists and
that `(service, provider)` resolves in the catalog; the node id is
stored with plain dict assignment (replacing any existing node of the
same id), and the optional cluster id is kept on the record even when
no such cluster exists — membership is appended only when the (truthy)
cluster id is present in the session. -/
def add_node (reg : Registry) (input_data : AddNodeInput) :
    Registry × Except String AddNodeOutput :=
  match dictLookup reg input_data.diagram_id with
  | none =>
      (reg, Except.error ("Diagram " ++ input_data.diagram_id ++ " not found"))
  | some diagram_data =>
      match get_node_class input_data.service input_data.provider with
      | Except.error e => (reg, Except.error e)
      | Except.ok (node_class, node_type) =>
          let node_info : NodeInfo :=
            { id := input_data.node_id
              label := input_data.label
              service := input_data.service
              provider := input_data.provider
              node_type := node_type
              cluster := input_data.cluster_id }
          let nodes2 := dictInsert diagram_data.nodes input_data.node_id
            { info := node_info, nodeClass := node_class }
          let clusters2 :=
            match input_data.cluster_id with
            | some cid =>
                if cid != "" && dictContains diagram_data.clusters cid then
                  dictModify diagram_data.clusters cid
                    (fun cd => { cd with nodes := cd.nodes ++ [input_data.node_id] })
                else diagram_data.clusters
            | none => diagram_data.clusters
          let data2 := { diagram_data with nodes := nodes2, clusters := clusters2 }
          (dictInsert reg input_data.diagram_id data2,
           Except.ok { node_id := input_data.node_id,
                       service := input_data.service,
                       node_type := node_type })

/-- `DiagramTools.create_cluster`.  Checks only session existence; the
cluster is stored with plain dict assignment (replacing any existing
cluster of the same id) and the parent reference is recorded without
validation. -/
def create_cluster (reg : Registry) (input_data : CreateClusterInput) :
    Registry × Except String CreateClusterOutput :=
  match dictLookup reg input_data.diagram_id with
  | none =>
      (reg, Except.error ("Diagram " ++ input_data.diagram_id ++ " not found"))
  | some diagram_data =>
      let cluster_info : ClusterInfo :=
        { id := input_data.cluster_id, label := input_data.label, nodes := [] }
      let clusters2 := dictInsert diagram_data.clusters input_data.cluster_id
        { info := cluster_info, parent := input_data.parent_cluster_id, nodes := [] }
      (dictInsert reg input_data.diagram_id { diagram_data with clusters := clusters2 },
       Except.ok { cluster_id := input_data.cluster_id, label := input_data.label })

/-- `DiagramTools.connect_nodes`.  Fails if the session is missing or
either endpoint is absent from the session's node dict; only then is
the connection appended. -/
def connect_nodes (reg : Registry) (input_data : ConnectNodesInput) :
    Registry × Except String ConnectNodesOutput :=
  match dictLookup reg input_data.diagram_id with
  | none =>
      (reg, Except.error ("Diagram " ++ input_data.diagram_id ++ " not found"))
  | some diagram_data =>
      match dictLookup diagram_data.nodes input_data.source_node_id with
      | none =>
          (reg, Except.error ("Source node " ++ input_data.source_node_id ++ " not found"))
      | some _ =>
          match dictLookup diagram_data.nodes input_data.target_node_id with
          | none =>
              (reg, Except.error ("Target node " ++ input_data.target_node_id ++ " not found"))
          | some _ =>
              let connection_info : ConnectionInfo :=
                { source := input_data.source_node_id
                  target := input_data.target_node_id
                  label := input_data.label
                  bidirectional := input_data.bidirectional }
              let data2 := { diagram_data with
                connections := diagram_data.connections ++ [connection_info] }
              (dictInsert reg input_data.diagram_id data2,
               Except.ok { source_node_id := input_data.source_node_id,
                           target_node_id := input_data.target_node_id,
                           connection_type :=
                             if input_data.bidirectional then "bidirectional"
                             else "directional" })

/-- The cluster context a node is materialized in while rendering
(lines 480-496 of `diagram_tools.py`): only parent-less clusters get a
`Cluster` object, and `if node_info.cluster and node_info.cluster in
cluster_objects` decides placement — so a falsy or unknown cluster
reference renders the node at top level. -/
def renderPlacement (clusters : List (String × ClusterData))
    (info : NodeInfo) : Option String :=
  let topIds := dictKeys (clusters.filter (fun p => p.2.parent.isNone))
  match info.cluster with
  | some c => if c != "" && topIds.contains c then some c else none
  | none => none

/-- The `DiagramStructure` snapshot assembled by `render_diagram`. -/
def buildStructure (diagram_data : DiagramData) : DiagramStructure :=
  { title := diagram_data.title
    direction := diagram_data.direction
    nodes := (dictValues diagram_data.nodes).map (·.info)
    connections := diagram_data.connections
    clusters := (dictValues diagram_data.clusters).map (·.info) }

/-- `DiagramTools.render_diagram`.  The file system and the external
renderer are outside the model: `fileWasCreated` is the result of the
`output_path.exists()` check after the render context closes,
`fileSize` is `file_manager.get_file_size(output_path)` (with `or 0`
applied), and `tempPath` is `file_manager.get_temp_path`.  The registry
entry is deleted only on the success path, after the file-existence
check; the file-missing failure returns with the registry untouched. -/
def render_diagram (fileWasCreated : Bool) (fileSize : Option Nat)
    (tempPath : String → String) (reg : Registry)
    (input_data : RenderDiagramInput) :
    Registry × Except String RenderDiagramOutput :=
  match dictLookup reg input_data.diagram_id with
  | none =>
      (reg, Except.error ("Diagram " ++ input_data.diagram_id ++ " not found"))
  | some diagram_data =>
      if !fileWasCreated then
        (reg, Except.error "Diagram file was not created")
      else
        (dictErase reg input_data.diagram_id,
         Except.ok { diagram_path := tempPath diagram_data.filename,
                     file_size_bytes := fileSize.getD 0,
                     structure_ := buildStructure diagram_data })

deriving instance DecidableEq for Except

/-! ## Helper state used by the concrete runs -/

/-- Number of nodes currently stored for a session. -/
def nodeCountOf (reg : Registry) (did : String) : Option Nat :=
  (dictLookup reg did).map (fun d => d.nodes.length)

/-- Number of clusters currently stored for a session. -/
def clusterCountOf (reg : Registry) (did : String) : Option Nat :=
  (dictLookup reg did).map (fun d => d.clusters.length)

/-- The stored label of a node of a session. -/
def nodeLabelOf (reg : Registry) (did nid : String) : Option String :=
  (dictLookup reg did).bind (fun d =>
    (dictLookup d.nodes nid).map (fun nd => nd.info.label))

/-- The stored label of a cluster of a session. -/
def clusterLabelOf (reg : Registry) (did cid : String) : Option String :=
  (dictLookup reg did).bind (fun d =>
    (dictLookup d.clusters cid).map (fun cd => cd.info.label))

/-- A fresh single-session registry with the given title. -/
def freshReg (title : String) : Registry :=
  (create_diagram_structure "d1" "gen.png"
    { title := title, direction := DiagramDirection.TOP_BOTTOM, filename := none }
    []).1

/-- `i`-th distinct add-node input of the limit scenario. -/
def limitAddInput (i : Nat) : AddNodeInput :=
  { diagram_id := "d1", node_id := "n" ++ toString i, service := "ec2",
    provider := CloudProvider.aws, label := "Node", cluster_id := none }

/-- Registry after `n` successive `add_node` calls with distinct ids. -/
def addNodesSeq (reg : Registry) : Nat → Registry
  | 0 => reg
  | n + 1 => (add_node (addNodesSeq reg n) (limitAddInput n)).1

/-- Input of the duplicate-node scenario, with a chosen label. -/
def dupNodeInput (label : String) : AddNodeInput :=
  { diagram_id := "d1", node_id := "web", service := "ec2",
    provider := CloudProvider.aws, label := label, cluster_id := none }

/-- Input of the duplicate-cluster scenario, with a chosen label. -/
def dupClusterInput (label : String) : CreateClusterInput :=
  { diagram_id := "d1", cluster_id := "tier", label := label,
    parent_cluster_id := none }

/-! ## Claims -/

/-- C1.  The claim fails on the code: `add_node` and `create_cluster`
perform no identifier validation at all, so a second `add_node` with an
already-used `nodeId` succeeds and silently replaces the stored node
(likewise for clusters), even though the repository's own
`validate_unique_id` validator rejects exactly this.  This run adds the
node `web` twice (labels `Web 1` then `Web 2`): both calls succeed, the
session still holds one node whose label is the second one, and the
same happens for the cluster `tier`. -/
theorem add_node_admits_duplicate_ids :
    validate_unique_id "web" ["web"] "Node ID" =
      Except.error "Node ID web already exists" ∧
    resultOk (add_node (freshReg "Web App") (dupNodeInput "Web 1")).2 = true ∧
    resultOk (add_node (add_node (freshReg "Web App") (dupNodeInput "Web 1")).1
        (dupNodeInput "Web 2")).2 = true ∧
    nodeCountOf (add_node (add_node (freshReg "Web App") (dupNodeInput "Web 1")).1
        (dupNodeInput "Web 2")).1 "d1" = some 1 ∧
    nodeLabelOf (add_node (add_node (freshReg "Web App") (dupNodeInput "Web 1")).1
        (dupNodeInput "Web 2")).1 "d1" "web" = some "Web 2" ∧
    resultOk (create_cluster
        (create_cluster (freshReg "Web App") (dupClusterInput "Tier 1")).1
        (dupClusterInput "Tier 2")).2 = true ∧
    clusterCountOf (create_cluster
        (create_cluster (freshReg "Web App") (dupClusterInput "Tier 1")).1
        (dupClusterInput "Tier 2")).1 "d1" = some 1 ∧
    clusterLabelOf (create_cluster
        (create_cluster (freshReg "Web App") (dupClusterInput "Tier 1")).1
        (dupClusterInput "Tier 2")).1 "d1" "tier" = some "Tier 2" := by
  decide

/-- C2.  The claim fails on the code: no builder operation ever calls
`validate_diagram_limits`, so nothing bounds a session's size.  After
50 successful `add_node` calls the 51st (with a fresh id) also
succeeds and the session holds 51 nodes — even though the repository's
own limit validator rejects a node count of 51. -/
theorem add_node_ignores_node_limit :
    validate_diagram_limits 51 0 0 =
      Except.error "Diagram cannot exceed 50 nodes" ∧
    nodeCountOf (addNodesSeq (freshReg "Big") 50) "d1" = some 50 ∧
    resultOk (add_node (addNodesSeq (freshReg "Big") 50) (limitAddInput 50)).2 = true ∧
    nodeCountOf (add_node (addNodesSeq (freshReg "Big") 50) (limitAddInput 50)).1 "d1" =
      some 51 := by
  decide

/-- C6.  The claim fails on the code: `create_diagram_structure` never
calls `validate_title` (or any validator) and cannot fail at all; a
title that the title validator rejects — here one containing the
forbidden character `<`, and the empty title — is accepted verbatim and
a session is inserted into the store for it. -/
theorem create_diagram_structure_skips_title_validation :
    validate_title "<bad>" = Except.error "Title contains invalid characters" ∧
    validate_title "" = Except.error "Title cannot be empty" ∧
    resultOk (create_diagram_structure "d1" "gen.png"
      { title := "<bad>", direction := DiagramDirection.TOP_BOTTOM,
        filename := none } []).2 = true ∧
    (dictLookup (freshReg "<bad>") "d1").map (·.title) = some "<bad>" ∧
    resultOk (create_diagram_structure "d1" "gen.png"
      { title := "", direction := DiagramDirection.TOP_BOTTOM,
        filename := none } []).2 = true ∧
    (dictLookup (freshReg "") "d1").map (·.title) = some "" := by
  decide

/-- C7.  The claim fails on the code: `add_node` never calls
`validate_id`, so the reserved word `diagram` is accepted as a node id.
With a resolvable `(service, provider)` pair the call succeeds and the
node is stored, even though the repository's identifier validator
rejects `diagram` as reserved. -/
theorem add_node_accepts_reserved_node_id :
    validate_id "diagram" "Node ID" =
      Except.error "Node ID diagram is a reserved word" ∧
    (add_node (freshReg "API")
      { diagram_id := "d1", node_id := "diagram", service := "ec2",
        provider := CloudProvider.aws, label := "API",
        cluster_id := none }).2 =
      Except.ok { node_id := "diagram", service := "ec2",
                  node_type := NodeType.compute } ∧
    nodeCountOf (add_node (freshReg "API")
      { diagram_id := "d1", node_id := "diagram", service := "ec2",
        provider := CloudProvider.aws, label := "API",
        cluster_id := none }).1 "d1" = some 1 := by
  decide

/-- C8.  The general pipeline of `normalize_service_name` is as
claimed (casing/separator rule, vendor prefixes, `_service`/`_services`
suffixes, alias table) and `elastic_compute_cloud` maps to `ec2`; but
`simple_storage_service` does NOT map to `s3`: the `_service` suffix is
stripped before the alias lookup, producing `simple_storage`, for which
the alias table (keyed on the full `simple_storage_service`) has no
entry.  The repository's own test `test_normalize_with_aliases`
expects `s3` here, so the code contradicts its test suite. -/
theorem normalize_strips_suffix_before_alias :
    normalize_service_name "elastic_compute_cloud" = "ec2" ∧
    normalize_service_name "Elastic Compute Cloud" = "ec2" ∧
    normalize_service_name "AWS Lambda" = "lambda" ∧
    normalize_service_name "Azure-VM" = "vm" ∧
    dictLookup SERVICE_ALIASES "simple_storage_service" = some "s3" ∧
    normalize_service_name "simple_storage_service" = "simple_storage" ∧
    normalize_service_name "Simple Storage Service" = "simple_storage" := by
  decide

/-- A key absent from a dict is absent from any filtered sub-dict. -/
theorem dictLookup_filter_none {α : Type} {l : List (String × α)} {k : String}
    (f : String × α → Bool) (h : dictLookup l k = none) :
    dictLookup (l.filter f) k = none := by
  induction l with
  | nil => rfl
  | cons p rest ih =>
      cases p with
      | mk k2 v =>
        by_cases hk : k2 = k
        · rw [dictLookup] at h; simp [hk] at h
        · rw [dictLookup] at h
          rw [if_neg hk] at h
          rw [List.filter_cons]
          by_cases hf : f (k2, v)
          · simp only [hf, if_true, ite_true]
            rw [dictLookup, if_neg hk]
            exact ih h
          · simp only [hf]
            simpa using ih h

/-- C3.  For a session present in the store, `connect_nodes` fails iff
at least one endpoint id is absent from the session's node dict; every
failure is one of the two endpoint not-found errors and leaves the
registry (hence the connection list) unchanged. -/
theorem connect_nodes_notfound_iff_endpoint_missing
    (reg : Registry) (inp : ConnectNodesInput) (data : DiagramData)
    (h : dictLookup reg inp.diagram_id = some data) :
    ((∃ e, (connect_nodes reg inp).2 = Except.error e) ↔
      (dictLookup data.nodes inp.source_node_id = none ∨
       dictLookup data.nodes inp.target_node_id = none)) ∧
    (∀ e, (connect_nodes reg inp).2 = Except.error e →
      ((connect_nodes reg inp).1 = reg ∧
       (e = "Source node " ++ inp.source_node_id ++ " not found" ∨
        e = "Target node " ++ inp.target_node_id ++ " not found"))) := by
  unfold connect_nodes
  rw [h]
  cases hs : dictLookup data.nodes inp.source_node_id with
  | none => simp [hs]
  | some nd =>
      cases ht : dictLookup data.nodes inp.target_node_id with
      | none => simp [hs, ht]
      | some nd2 => simp [hs, ht]

/-- C4.  A successful `render_diagram` removes the session from the
store, and every subsequent builder operation referencing that id —
another `add_node`, `create_cluster`, `connect_nodes`, or a second
`render_diagram` — fails with the session-not-found error. -/
theorem render_success_removes_session
    (fc : Bool) (fs : Option Nat) (tp : String → String)
    (reg : Registry) (inp : RenderDiagramInput) (out : RenderDiagramOutput)
    (h : (render_diagram fc fs tp reg inp).2 = Except.ok out) :
    dictLookup (render_diagram fc fs tp reg inp).1 inp.diagram_id = none ∧
    (∀ i2 : AddNodeInput, i2.diagram_id = inp.diagram_id →
      (add_node (render_diagram fc fs tp reg inp).1 i2).2 =
        Except.error ("Diagram " ++ inp.diagram_id ++ " not found")) ∧
    (∀ i2 : CreateClusterInput, i2.diagram_id = inp.diagram_id →
      (create_cluster (render_diagram fc fs tp reg inp).1 i2).2 =
        Except.error ("Diagram " ++ inp.diagram_id ++ " not found")) ∧
    (∀ i2 : ConnectNodesInput, i2.diagram_id = inp.diagram_id →
      (connect_nodes (render_diagram fc fs tp reg inp).1 i2).2 =
        Except.error ("Diagram " ++ inp.diagram_id ++ " not found")) ∧
    (∀ (fc2 : Bool) (fs2 : Option Nat) (tp2 : String → String),
      (render_diagram fc2 fs2 tp2 (render_diagram fc fs tp reg inp).1 inp).2 =
        Except.error ("Diagram " ++ inp.diagram_id ++ " not found")) := by
  have hreg : (render_diagram fc fs tp reg inp).1 = dictErase reg inp.diagram_id := by
    unfold render_diagram at h ⊢
    cases hl : dictLookup reg inp.diagram_id with
    | none => rw [hl] at h; simp at h
    | some d =>
        rw [hl] at h
        cases fc with
        | false => simp at h
        | true => simp
  have hnone : dictLookup (render_diagram fc fs tp reg inp).1 inp.diagram_id = none := by
    rw [hreg]; exact dictLookup_erase_self reg inp.diagram_id
  refine ⟨hnone, ?_, ?_, ?_, ?_⟩
  · intro i2 hi
    unfold add_node
    rw [hi, hnone]
  · intro i2 hi
    unfold create_cluster
    rw [hi, hnone]
  · intro i2 hi
    unfold connect_nodes
    rw [hi, hnone]
  · intro fc2 fs2 tp2
    generalize hg : (render_diagram fc fs tp reg inp).1 = reg2 at hnone
    unfold render_diagram
    rw [hnone]

/-! ## Concrete states for counterexamples and witnesses -/

/-- A populated single-node session value. -/
def demoNodeInfo : NodeInfo :=
  { id := "a", label := "A", service := "ec2",
    provider := CloudProvider.aws, node_type := NodeType.compute,
    cluster := none }

def demoData : DiagramData :=
  { title := "T",
    direction := DiagramDirection.TOP_BOTTOM,
    filename := "f.png",
    nodes := [("a", { info := demoNodeInfo,
                      nodeClass := ("diagrams.aws.compute", "EC2") })],
    clusters := [],
    connections := [] }

/-- A store holding just the session `d1` with value `demoData`. -/
def demoReg : Registry := [("d1", demoData)]

/-- C5 counterexample.  Refutes the claim that every `RenderDiagram`
call on a session present in the store deletes it whether the render
succeeds or fails: on the failure in which the renderer completes but
the output file is absent, the call returns the render-failure error
and the session is still in the store — so a retry with the same id
finds the session (here the retry even succeeds). -/
theorem render_failure_keeps_session_cex :
    (render_diagram false none (fun s => s) demoReg { diagram_id := "d1" }).2 =
      Except.error "Diagram file was not created" ∧
    (render_diagram false none (fun s => s) demoReg { diagram_id := "d1" }).1 =
      demoReg ∧
    dictLookup (render_diagram false none (fun s => s) demoReg
      { diagram_id := "d1" }).1 "d1" = some demoData ∧
    resultOk (render_diagram true (some 5) (fun s => s)
      (render_diagram false none (fun s => s) demoReg { diagram_id := "d1" }).1
      { diagram_id := "d1" }).2 = true :=
  ⟨rfl, rfl, rfl, rfl⟩

/-- C5 amended.  For a session present in the store, `render_diagram`
deletes the session exactly when it succeeds: on success the id is gone
from the store, while on any failure — including the case in which the
renderer completes but the expected output file is absent — the store
is unchanged and the session is still found, so a retry with the same
id does find it. -/
theorem render_deletes_session_iff_success
    (fc : Bool) (fs : Option Nat) (tp : String → String)
    (reg : Registry) (inp : RenderDiagramInput) (data : DiagramData)
    (h : dictLookup reg inp.diagram_id = some data) :
    ((∃ out, (render_diagram fc fs tp reg inp).2 = Except.ok out) →
       dictLookup (render_diagram fc fs tp reg inp).1 inp.diagram_id = none) ∧
    ((∃ e, (render_diagram fc fs tp reg inp).2 = Except.error e) →
       ((render_diagram fc fs tp reg inp).1 = reg ∧
        dictLookup (render_diagram fc fs tp reg inp).1 inp.diagram_id =
          some data)) := by
  unfold render_diagram
  rw [h]
  cases fc with
  | false => simp [h]
  | true => simp [dictLookup_erase_self]

/-- Witness for `render_deletes_session_iff_success` at a concrete
store, session and outcome flag. -/
theorem render_deletes_session_iff_success_witness :
    ((∃ out, (render_diagram true (some 5) (fun s => s) demoReg
        { diagram_id := "d1" }).2 = Except.ok out) →
       dictLookup (render_diagram true (some 5) (fun s => s) demoReg
        { diagram_id := "d1" }).1 "d1" = none) ∧
    ((∃ e, (render_diagram true (some 5) (fun s => s) demoReg
        { diagram_id := "d1" }).2 = Except.error e) →
       ((render_diagram true (some 5) (fun s => s) demoReg
          { diagram_id := "d1" }).1 = demoReg ∧
        dictLookup (render_diagram true (some 5) (fun s => s) demoReg
          { diagram_id := "d1" }).1 "d1" = some demoData)) :=
  render_deletes_session_iff_success true (some 5) (fun s => s) demoReg
    { diagram_id := "d1" } demoData rfl

/-- Witness for `connect_nodes_notfound_iff_endpoint_missing`: session
`d1` holds only the node `a`, and connecting `a` to the missing `b`
must fail without mutating the store. -/
theorem connect_nodes_notfound_iff_endpoint_missing_witness :
    dictLookup demoReg "d1" = some demoData ∧
    (((∃ e, (connect_nodes demoReg
        { diagram_id := "d1", source_node_id := "a", target_node_id := "b",
          label := none, bidirectional := false }).2 = Except.error e) ↔
      (dictLookup demoData.nodes "a" = none ∨
       dictLookup demoData.nodes "b" = none)) ∧
    (∀ e, (connect_nodes demoReg
        { diagram_id := "d1", source_node_id := "a", target_node_id := "b",
          label := none, bidirectional := false }).2 = Except.error e →
      ((connect_nodes demoReg
          { diagram_id := "d1", source_node_id := "a", target_node_id := "b",
            label := none, bidirectional := false }).1 = demoReg ∧
       (e = "Source node " ++ "a" ++ " not found" ∨
        e = "Target node " ++ "b" ++ " not found")))) :=
  ⟨rfl, connect_nodes_notfound_iff_endpoint_missing demoReg
    { diagram_id := "d1", source_node_id := "a", target_node_id := "b",
      label := none, bidirectional := false } demoData rfl⟩

/-- Witness for `render_success_removes_session`: a successful render
of `d1`, after which each operation on `d1` reports it missing. -/
theorem render_success_removes_session_witness :
    dictLookup (render_diagram true (some 5) (fun s => s) demoReg
      { diagram_id := "d1" }).1 "d1" = none ∧
    (add_node (render_diagram true (some 5) (fun s => s) demoReg
        { diagram_id := "d1" }).1
      { diagram_id := "d1", node_id := "x", service := "ec2",
        provider := CloudProvider.aws, label := "X", cluster_id := none }).2 =
      Except.error ("Diagram " ++ "d1" ++ " not found") ∧
    (create_cluster (render_diagram true (some 5) (fun s => s) demoReg
        { diagram_id := "d1" }).1
      { diagram_id := "d1", cluster_id := "c", label := "C",
        parent_cluster_id := none }).2 =
      Except.error ("Diagram " ++ "d1" ++ " not found") ∧
    (connect_nodes (render_diagram true (some 5) (fun s => s) demoReg
        { diagram_id := "d1" }).1
      { diagram_id := "d1", source_node_id := "a", target_node_id := "a",
        label := none, bidirectional := false }).2 =
      Except.error ("Diagram " ++ "d1" ++ " not found") ∧
    (render_diagram true (some 5) (fun s => s)
      (render_diagram true (some 5) (fun s => s) demoReg
        { diagram_id := "d1" }).1 { diagram_id := "d1" }).2 =
      Except.error ("Diagram " ++ "d1" ++ " not found") := by
  have h : (render_diagram true (some 5) (fun s => s) demoReg
      { diagram_id := "d1" }).2 =
      Except.ok { diagram_path := "f.png", file_size_bytes := 5,
                  structure_ := buildStructure demoData } := by rfl
  have hmain := render_success_removes_session true (some 5) (fun s => s)
    demoReg { diagram_id := "d1" } _ h
  exact ⟨hmain.1, hmain.2.1 _ rfl, hmain.2.2.1 _ rfl, hmain.2.2.2.1 _ rfl,
    hmain.2.2.2.2 true (some 5) (fun s => s)⟩

/-- A node whose cluster reference names no cluster of the session is
placed outside every cluster context by the render step. -/
theorem renderPlacement_none_of_missing
    (clusters : List (String × ClusterData)) (info : NodeInfo) (c : String)
    (hc : info.cluster = some c) (hmiss : dictLookup clusters c = none) :
    renderPlacement clusters info = none := by
  unfold renderPlacement
  rw [hc]
  have h2 : dictLookup (clusters.filter (fun p => p.2.parent.isNone)) c = none :=
    dictLookup_filter_none _ hmiss
  simp only [dictKeys]
  simp
  intro _ b hb
  exact absurd rfl (dictLookup_none_key_ne hmiss (c, b) hb)

/-- C9.  `add_node` with a `cluster_id` naming no cluster of the
session still admits the node and keeps the dangling reference on the
stored record; the session's cluster dict is untouched, the structure
that `render_diagram` would return contains the node (with the dangling
reference) while no cluster of the structure carries that id, and the
render placement treats the node as unclustered. -/
theorem add_node_keeps_dangling_cluster_reference
    (reg : Registry) (inp : AddNodeInput) (data : DiagramData) (c : String)
    (cls : (String × String) × NodeType)
    (h : dictLookup reg inp.diagram_id = some data)
    (hc : inp.cluster_id = some c)
    (hmiss : dictLookup data.clusters c = none)
    (hcat : get_node_class inp.service inp.provider = Except.ok cls)
    (hwf : ∀ p ∈ data.clusters, p.2.info.id = p.1) :
    resultOk (add_node reg inp).2 = true ∧
    (∃ data2 nd,
      dictLookup (add_node reg inp).1 inp.diagram_id = some data2 ∧
      dictLookup data2.nodes inp.node_id = some nd ∧
      nd.info.cluster = some c ∧
      data2.clusters = data.clusters ∧
      dictLookup data2.clusters c = none ∧
      renderPlacement data2.clusters nd.info = none ∧
      (∀ ci ∈ (buildStructure data2).clusters, ci.id ≠ c) ∧
      nd.info ∈ (buildStructure data2).nodes) := by
  obtain ⟨nc, nt⟩ := cls
  unfold add_node
  rw [h, hcat]
  simp only [hc, dictContains, hmiss, Option.isSome_none, Bool.and_false,
    Bool.false_eq_true, if_false]
  refine ⟨rfl, ⟨_, _, dictLookup_insert_self _ _ _,
    dictLookup_insert_self _ _ _, rfl, rfl, hmiss, ?_, ?_, ?_⟩⟩
  · exact renderPlacement_none_of_missing data.clusters _ c rfl hmiss
  · intro ci hci
    simp only [buildStructure, dictValues] at hci
    rcases List.mem_map.mp hci with ⟨cd, hcd, rfl⟩
    rcases List.mem_map.mp hcd with ⟨p, hp, rfl⟩
    rw [hwf p hp]
    exact dictLookup_none_key_ne hmiss p hp
  · simp only [buildStructure, dictValues]
    exact List.mem_map_of_mem _ (List.mem_map_of_mem _ (mem_dictInsert_self _ _ _))

/-- The dangling-cluster `add_node` input of the C9 witness. -/
def danglingInput : AddNodeInput :=
  { diagram_id := "d1", node_id := "api", service := "ec2",
    provider := CloudProvider.aws, label := "API", cluster_id := some "ghost" }

/-- Witness for `add_node_keeps_dangling_cluster_reference` at a
concrete store: session `d1` has no cluster `ghost`, yet the node is
admitted with the dangling reference. -/
theorem add_node_keeps_dangling_cluster_reference_witness :
    resultOk (add_node demoReg danglingInput).2 = true ∧
    (∃ data2 nd,
      dictLookup (add_node demoReg danglingInput).1 "d1" = some data2 ∧
      dictLookup data2.nodes "api" = some nd ∧
      nd.info.cluster = some "ghost" ∧
      data2.clusters = demoData.clusters ∧
      dictLookup data2.clusters "ghost" = none ∧
      renderPlacement data2.clusters nd.info = none ∧
      (∀ ci ∈ (buildStructure data2).clusters, ci.id ≠ "ghost") ∧
      nd.info ∈ (buildStructure data2).nodes) :=
  add_node_keeps_dangling_cluster_reference demoReg danglingInput demoData
    "ghost" (("diagrams.aws.compute", "EC2"), NodeType.compute) rfl rfl rfl rfl
    (by simp [demoData])

/-- C10.  Whenever the normalized form of the input equals an available
catalog key for the provider, that key is suggested at least twice —
once by the exact-match step and again by the substring pass (equality
is a substring match) — so the suggestion list is not duplicate-free,
while the final `take 5` keeps its length at most 5. -/
theorem suggest_services_duplicates_exact_match
    (service : String) (provider : CloudProvider)
    (h : normalize_service_name service ∈ availableServices provider) :
    2 ≤ (suggest_services service provider).count
        (normalize_service_name service) ∧
    (suggest_services service provider).length ≤ 5 := by
  have key : ∀ n ∈ availableServices provider,
      2 ≤ (suggestFrom n provider).count n ∧
      (suggestFrom n provider).length ≤ 5 := by
    cases provider <;> decide
  exact key _ h

/-- Witness for `suggest_services_duplicates_exact_match` on the input
`EC2` (normalizing to the AWS key `ec2`). -/
theorem suggest_services_duplicates_exact_match_witness :
    normalize_service_name "EC2" ∈ availableServices CloudProvider.aws ∧
    (2 ≤ (suggest_services "EC2" CloudProvider.aws).count
        (normalize_service_name "EC2") ∧
     (suggest_services "EC2" CloudProvider.aws).length ≤ 5) :=
  ⟨by decide,
   suggest_services_duplicates_exact_match "EC2" CloudProvider.aws (by decide)⟩
